import Mathlib

/-!
Verification of the `core` service layer of cafebazaar/keyvalue-store
(`internal/core/service.go`) against its natural-language specification.

The Go service is a thin choreography layer: every operation asks the
cluster for a view, builds per-backend operator closures, and hands them to
a quorum engine.  The engine and the cluster are interfaces
(`pkg/keyvaluestore`), so their outcomes appear here as explicit parameters
(`Except Err …` values); the definitions below embed, line for line, the
decision logic that lives in `service.go` itself: consistency
substitution, the per-operation `OperationMode`, node sorting for `Lock`,
the read-repair closures of `Get`/`Expire`/`Exists`, the response shaping
of `Expire`/`Exists`/`GetTTL`, `Close`, the value comparers and the
gRPC error conversion.  Go `time.Duration` is embedded as `Int`
(nanoseconds); `*time.Duration` and interface nil as `Option`; `[]byte` as
`List Nat`.
-/

namespace KVStore

/-- `keyvaluestore.ConsistencyLevel`: DEFAULT, ONE, MAJORITY, ALL. -/
inductive ConsistencyLevel
  | DEFAULT
  | ONE
  | MAJORITY
  | ALL
deriving DecidableEq, Repr

/-- The error taxonomy visible in `service.go`: the domain errors of
`pkg/keyvaluestore`, the two ambient context errors, and a catch-all for
any other Go error (carrying its message). -/
inductive Err
  | errNotFound
  | errConsistency
  | contextCanceled
  | contextDeadlineExceeded
  | errNotAcquired
  | errClosed
  | other (msg : String)
deriving DecidableEq, Repr

/-- Go `[]byte`. -/
abbrev Bytes := List Nat

/-- Go `time.Duration`, in nanoseconds. -/
abbrev Duration := Int

/-- `acceptableDurationDiff = 2 * time.Second` (`time.Second` = 1e9 ns). -/
def acceptableDurationDiff : Duration := 2 * 1000000000

/-- The gRPC codes `convertErrorToGRPC` can produce. -/
inductive GRPCCode
  | notFound
  | unavailable
  | canceled
  | deadlineExceeded
  | internal
deriving DecidableEq, Repr

/-- A `status.Error(code, msg)` value: the code together with the error
whose `Error()` text was passed as the message. -/
structure GRPCStatus where
  code : GRPCCode
  messageOf : Err
deriving DecidableEq, Repr

/-- `convertErrorToGRPC` of `service.go`: nil error stays nil; the switch
maps ErrNotFound to NotFound, ErrConsistency to Unavailable,
context.Canceled to Canceled, context.DeadlineExceeded to DeadlineExceeded
(the source passes `context.Canceled.Error()` as that status text), and
anything else to Internal with its own text. -/
def convertErrorToGRPC : Option Err → Option GRPCStatus
  | none => none
  | some Err.errNotFound => some { code := GRPCCode.notFound, messageOf := Err.errNotFound }
  | some Err.errConsistency => some { code := GRPCCode.unavailable, messageOf := Err.errConsistency }
  | some Err.contextCanceled => some { code := GRPCCode.canceled, messageOf := Err.contextCanceled }
  | some Err.contextDeadlineExceeded =>
      some { code := GRPCCode.deadlineExceeded, messageOf := Err.contextCanceled }
  | some e => some { code := GRPCCode.internal, messageOf := e }

/-- The configuration fields of `coreService` (the cluster and engine are
interface handles, abstracted as parameters of the operations below). -/
structure CoreService where
  defaultWriteConsistency : ConsistencyLevel
  defaultReadConsistency : ConsistencyLevel
deriving DecidableEq, Repr

/-- `core.Option`: a functional option mutating the service under
construction. -/
abbrev ServiceOption := CoreService → CoreService

/-- `core.WithDefaultReadConsistency`. -/
def WithDefaultReadConsistency (c : ConsistencyLevel) : ServiceOption :=
  fun s => { s with defaultReadConsistency := c }

/-- `core.WithDefaultWriteConsistency`. -/
def WithDefaultWriteConsistency (c : ConsistencyLevel) : ServiceOption :=
  fun s => { s with defaultWriteConsistency := c }

/-- `core.New`: factory defaults Read=MAJORITY, Write=ALL, then the options
applied in order. -/
def New (options : List ServiceOption) : CoreService :=
  options.foldl (fun s o => o s)
    { defaultReadConsistency := ConsistencyLevel.MAJORITY,
      defaultWriteConsistency := ConsistencyLevel.ALL }

/-- `keyvaluestore.WriteOptions` (the field `service.go` consults). -/
structure WriteOptions where
  consistency : ConsistencyLevel
deriving DecidableEq, Repr

/-- `keyvaluestore.ReadOptions` (the field `service.go` consults). -/
structure ReadOptions where
  consistency : ConsistencyLevel
deriving DecidableEq, Repr

/-- `coreService.writeConsistency`. -/
def writeConsistency (s : CoreService) (writeOptions : WriteOptions) : ConsistencyLevel :=
  if writeOptions.consistency = ConsistencyLevel.DEFAULT then s.defaultWriteConsistency
  else writeOptions.consistency

/-- `coreService.readConsistency`. -/
def readConsistency (s : CoreService) (readOptions : ReadOptions) : ConsistencyLevel :=
  if readOptions.consistency = ConsistencyLevel.DEFAULT then s.defaultReadConsistency
  else readOptions.consistency

/-- Two's-complement wraparound of Go int64 arithmetic: reduce an integer
into [-9223372036854775808, 9223372036854775808) = [-2^63, 2^63). -/
def wrap64 (a : Int) : Int :=
  (a + 9223372036854775808) % 18446744073709551616 - 9223372036854775808

/-- `coreService.durationComparer`: nil against nil is equal, nil against
non-nil is not; otherwise `diff := *x - *y` and, when negative,
`diff = -diff` are computed in Go's wrapping int64 arithmetic
(`time.Duration` is int64), and the result is compared against
`acceptableDurationDiff`. -/
def durationComparer (x y : Option Duration) : Bool :=
  match x with
  | none => y.isNone
  | some xv =>
    match y with
    | none => false
    | some yv =>
      let diff := wrap64 (xv - yv)
      let diff2 := if diff < 0 then wrap64 (-diff) else diff
      decide (diff2 < acceptableDurationDiff)

/-- `coreService.byteComparer` (`bytes.Equal`). -/
def byteComparer (x y : Bytes) : Bool := decide (x = y)

/-- `coreService.booleanComparer`. -/
def booleanComparer (x y : Bool) : Bool := x == y

/-- `coreService.majority`. -/
def majority (n : Nat) : Nat := n / 2 + 1

/-- A backend, identified (as far as `service.go` is concerned) by its
stable `Address()` string. -/
structure Backend where
  address : String
deriving DecidableEq, Repr

/-- The ordering `sortNodes` establishes: ascending `Address()`. -/
def backendLE (a b : Backend) : Prop := a.address ≤ b.address

instance : DecidableRel backendLE :=
  fun a b => inferInstanceAs (Decidable (a.address ≤ b.address))

instance : IsTotal Backend backendLE := ⟨fun a b => le_total a.address b.address⟩

instance : IsTrans Backend backendLE := ⟨fun _ _ _ hab hbc => le_trans hab hbc⟩

/-- `coreService.sortNodes`: copy the slice (`append` to a nil slice) and
sort the copy by address.  `sort.Slice` with the strict `<` on addresses
produces some address-sorted permutation; insertion sort under `backendLE`
is the deterministic refinement embedded here. -/
def sortNodes (nodes : List Backend) : List Backend :=
  List.insertionSort backendLE nodes

/-- `keyvaluestore.OperationMode`. -/
inductive OperationMode
  | concurrent
  | sequential
deriving DecidableEq, Repr

/-- The view `cluster.Write`/`cluster.FlushDB` returns: backends plus the
acknowledge threshold. -/
structure WriteView where
  backends : List Backend
  acknowledgeRequired : Nat
deriving DecidableEq, Repr

/-- The engine `Write` invocation a service write operation performs: which
nodes, which threshold, which mode (the operator and rollback closures are
opaque to the claims below). -/
structure EngineWriteCall where
  nodes : List Backend
  acknowledgeRequired : Nat
  mode : OperationMode
deriving DecidableEq, Repr

/-- `coreService.performWrite`: substitute consistency, resolve the cluster
view (propagating its error), sort the backends when — and only when — the
mode is Sequential, and call the engine. -/
def performWrite (s : CoreService) (clusterWrite : ConsistencyLevel → Except Err WriteView)
    (options : WriteOptions) (mode : OperationMode) : Except Err EngineWriteCall :=
  match clusterWrite (writeConsistency s options) with
  | Except.error e => Except.error e
  | Except.ok view =>
    let backends :=
      if mode = OperationMode.sequential then sortNodes view.backends else view.backends
    Except.ok { nodes := backends, acknowledgeRequired := view.acknowledgeRequired, mode := mode }

/-- `coreService.Set`: performWrite in Concurrent mode. -/
def coreSet (s : CoreService) (clusterWrite : ConsistencyLevel → Except Err WriteView)
    (options : WriteOptions) : Except Err EngineWriteCall :=
  performWrite s clusterWrite options OperationMode.concurrent

/-- `coreService.Delete`: performWrite in Concurrent mode. -/
def coreDelete (s : CoreService) (clusterWrite : ConsistencyLevel → Except Err WriteView)
    (options : WriteOptions) : Except Err EngineWriteCall :=
  performWrite s clusterWrite options OperationMode.concurrent

/-- `coreService.Lock`: performWrite in Sequential mode (the deadlock
avoidance path). -/
def coreLock (s : CoreService) (clusterWrite : ConsistencyLevel → Except Err WriteView)
    (options : WriteOptions) : Except Err EngineWriteCall :=
  performWrite s clusterWrite options OperationMode.sequential

/-- `coreService.Unlock`: performWrite in Concurrent mode. -/
def coreUnlock (s : CoreService) (clusterWrite : ConsistencyLevel → Except Err WriteView)
    (options : WriteOptions) : Except Err EngineWriteCall :=
  performWrite s clusterWrite options OperationMode.concurrent

/-- `coreService.performFlushDb`: view from `cluster.FlushDB()`, engine
Write in Concurrent mode. -/
def performFlushDb (flushView : Except Err WriteView) : Except Err EngineWriteCall :=
  match flushView with
  | Except.error e => Except.error e
  | Except.ok view =>
    Except.ok { nodes := view.backends, acknowledgeRequired := view.acknowledgeRequired,
                mode := OperationMode.concurrent }

/-- `keyvaluestore.RepairArgs` as the read-repair closures consume them:
the winning value (nil when the winner was ErrNotFound), the winning
error, and the winner/loser backend sets. -/
structure RepairArgs where
  value : Option Bytes
  err : Option Err
  winners : List Backend
  losers : List Backend
deriving DecidableEq, Repr

/-- The operator kind of an engine `Write` a repair closure issues against
the losers. -/
inductive WriteKind
  | deleteOp
  | setOp (value : Option Bytes) (ttl : Duration)
deriving DecidableEq, Repr

/-- One engine `Write` issued from inside a repair closure (always with
acknowledge count 0 in the source), with its `OperationMode`. -/
structure RepairEngineWrite where
  kind : WriteKind
  mode : OperationMode
deriving DecidableEq, Repr

/-- The `repairOperator` closure of `coreService.Get`, as the sequence of
engine writes it issues.  `ttlRead` is the outcome of the nested engine
`Read` of TTL over the winners (majority vote, `durationComparer`,
SkipVoteOnNotFound); the engine is an interface, so that outcome is a
parameter.  Source logic: a NotFound winner deletes the losers; a failed
TTL read abandons repair; otherwise `ttl` starts at the zero duration and
`shouldRepair` at true, a non-nil TTL is dereferenced into `ttl` and turns
`shouldRepair` off exactly when it is zero, and when `shouldRepair` is
still on a `Set(key, args.Value, ttl)` is written to the losers. -/
def getRepairOperator (args : RepairArgs) (ttlRead : Except Err (Option Duration)) :
    List RepairEngineWrite :=
  if args.err = some Err.errNotFound then
    [{ kind := WriteKind.deleteOp, mode := OperationMode.concurrent }]
  else
    match ttlRead with
    | Except.error _ => []
    | Except.ok ttlValue =>
      let st : Duration × Bool :=
        match ttlValue with
        | none => (0, true)
        | some t => (t, !(t == 0))
      if st.2 then
        [{ kind := WriteKind.setOp args.value st.1, mode := OperationMode.concurrent }]
      else []

/-- What a repair closure does: either it faults (the Go code dereferences
a nil `*time.Duration`) or it performs a sequence of engine writes. -/
inductive RepairOutcome
  | panics
  | writes (ws : List RepairEngineWrite)
deriving DecidableEq, Repr

/-- The common tail of the `Expire`/`Exists` repair closures: the nested
engine `Read` of the value over the winners (`valueRead`), then a
`Set(key, rawValue, ttl)` written to the losers; a failed value read
abandons repair. -/
def repairSetFinish (ttl : Duration) (valueRead : Except Err Bytes) : RepairOutcome :=
  match valueRead with
  | Except.error _ => RepairOutcome.writes []
  | Except.ok raw =>
    RepairOutcome.writes
      [{ kind := WriteKind.setOp (some raw) ttl, mode := OperationMode.concurrent }]

/-- The `repairOperator` closure of `coreService.Expire`.  A NotFound
winner deletes the losers; a failed TTL read abandons repair; then, when
`args.Value` is non-nil, the source executes
`ttl = *(ttlValue.(*time.Duration))` — a fault when the agreed TTL is nil
— and deletes the losers when that ttl is zero; otherwise it reads the
agreed value from the winners and writes it (with `ttl`, still the zero
duration when `args.Value` was nil) to the losers. -/
def expireRepairOperator (args : RepairArgs) (ttlRead : Except Err (Option Duration))
    (valueRead : Except Err Bytes) : RepairOutcome :=
  if args.err = some Err.errNotFound then
    RepairOutcome.writes [{ kind := WriteKind.deleteOp, mode := OperationMode.concurrent }]
  else
    match ttlRead with
    | Except.error _ => RepairOutcome.writes []
    | Except.ok ttlValue =>
      match args.value with
      | some _ =>
        match ttlValue with
        | none => RepairOutcome.panics
        | some ttl =>
          if ttl = 0 then
            RepairOutcome.writes
              [{ kind := WriteKind.deleteOp, mode := OperationMode.concurrent }]
          else repairSetFinish ttl valueRead
      | none => repairSetFinish 0 valueRead

/-- The `repairOperator` closure of `coreService.Exists`: textually the
same body as the `Expire` one in the source. -/
def existsRepairOperator (args : RepairArgs) (ttlRead : Except Err (Option Duration))
    (valueRead : Except Err Bytes) : RepairOutcome :=
  if args.err = some Err.errNotFound then
    RepairOutcome.writes [{ kind := WriteKind.deleteOp, mode := OperationMode.concurrent }]
  else
    match ttlRead with
    | Except.error _ => RepairOutcome.writes []
    | Except.ok ttlValue =>
      match args.value with
      | some _ =>
        match ttlValue with
        | none => RepairOutcome.panics
        | some ttl =>
          if ttl = 0 then
            RepairOutcome.writes
              [{ kind := WriteKind.deleteOp, mode := OperationMode.concurrent }]
          else repairSetFinish ttl valueRead
      | none => repairSetFinish 0 valueRead

/-- `keyvaluestore.GetResponse`. -/
structure GetResponse where
  data : Bytes
deriving DecidableEq, Repr

/-- `keyvaluestore.ExpireResponse` (Go field `Exists`). -/
structure ExpireResponse where
  keyExists : Bool
deriving DecidableEq, Repr

/-- `keyvaluestore.ExistsResponse` (Go field `Exists`). -/
structure ExistsResponse where
  keyExists : Bool
deriving DecidableEq, Repr

/-- `keyvaluestore.GetTTLResponse` (Go field `TTL`, a `*time.Duration`). -/
structure GetTTLResponse where
  TTL : Option Duration
deriving DecidableEq, Repr

/-- The tail of `coreService.Get` after `performRead` returns: an error is
converted to gRPC, a value becomes `GetResponse{Data}`. -/
def getTail (readResult : Except Err Bytes) : Option GetResponse × Option GRPCStatus :=
  match readResult with
  | Except.error e => (none, convertErrorToGRPC (some e))
  | Except.ok data => (some { data := data }, none)

/-- The tail of `coreService.Expire`: ErrNotFound becomes
`ExpireResponse{Exists: false}` with a nil error, other errors are
converted to gRPC, a boolean result becomes `ExpireResponse{Exists}`. -/
def expireTail (readResult : Except Err Bool) : Option ExpireResponse × Option GRPCStatus :=
  match readResult with
  | Except.error e =>
    if e = Err.errNotFound then (some { keyExists := false }, none)
    else (none, convertErrorToGRPC (some e))
  | Except.ok b => (some { keyExists := b }, none)

/-- The tail of `coreService.Exists`: same shape as the `Expire` tail. -/
def existsTail (readResult : Except Err Bool) : Option ExistsResponse × Option GRPCStatus :=
  match readResult with
  | Except.error e =>
    if e = Err.errNotFound then (some { keyExists := false }, none)
    else (none, convertErrorToGRPC (some e))
  | Except.ok b => (some { keyExists := b }, none)

/-- The tail of `coreService.GetTTL`: errors (ErrNotFound included) are
converted to gRPC; a nil raw result yields the zero-value response (TTL
nil) with a nil error; a duration is returned in the TTL field. -/
def getTTLTail (readResult : Except Err (Option Duration)) :
    Option GetTTLResponse × Option GRPCStatus :=
  match readResult with
  | Except.error e => (none, convertErrorToGRPC (some e))
  | Except.ok none => (some { TTL := none }, none)
  | Except.ok (some d) => (some { TTL := some d }, none)

/-- The observable steps of `coreService.Close`. -/
inductive CloseEvent
  | clusterClose
  | engineClose
  | logError (e : Err)
deriving DecidableEq, Repr

/-- `coreService.Close`: `lastErr := cluster.Close()`; then
`engine.Close()` — when it errs, a non-nil `lastErr` is logged and the
engine's error replaces it; `lastErr` is returned.  Result: the event
trace and the returned error. -/
def closeService (clusterCloseErr engineCloseErr : Option Err) :
    List CloseEvent × Option Err :=
  let lastErr := clusterCloseErr
  match engineCloseErr with
  | some e =>
    let logged :=
      match lastErr with
      | some le => [CloseEvent.logError le]
      | none => []
    ([CloseEvent.clusterClose, CloseEvent.engineClose] ++ logged, some e)
  | none => ([CloseEvent.clusterClose, CloseEvent.engineClose], lastErr)

/-- A heap of Go slice backing arrays, to state what `sortNodes` mutates:
array index ↦ contents, plus the next fresh index. -/
structure SliceHeap where
  arrays : Nat → List Backend
  next : Nat

/-- `coreService.sortNodes` over the heap model: `append` to a nil slice
allocates a fresh backing array holding a copy of the input slice's
elements, and `sort.Slice` then sorts that copy in place.  Returns the new
heap and the reference to the freshly allocated result slice. -/
def sortNodesHeap (h : SliceHeap) (r : Nat) : SliceHeap × Nat :=
  let fresh := h.next
  let copied : Nat → List Backend := fun i => if i = fresh then h.arrays r else h.arrays i
  let sorted : Nat → List Backend :=
    fun i => if i = fresh then sortNodes (copied fresh) else copied i
  ({ arrays := sorted, next := h.next + 1 }, fresh)

/-! ### Theorems about the claims -/

/-- `wrap64` is the identity on values already in the int64 range. -/
theorem wrap64_eq_self (a : Int) (h1 : -9223372036854775808 ≤ a)
    (h2 : a < 9223372036854775808) : wrap64 a = a := by
  unfold wrap64
  omega

/-- Claim C8 counterexample: at the in-range int64 inputs x = 2^62 ns and
y = -(2^62) ns the Go subtraction wraps (2^63 becomes -2^63) and the
negation of -2^63 wraps back to -2^63, so the comparer returns true even
though the absolute difference 2^63 ns is far above two seconds — the
claimed biconditional fails. -/
theorem C8_wraparound_counterexample :
    durationComparer (some 4611686018427387904) (some (-4611686018427387904)) = true ∧
    ¬(|(4611686018427387904 : Int) - -4611686018427387904| < acceptableDurationDiff) :=
  ⟨by decide, by decide⟩

/-- Claim C8 amended: the duration value comparer returns true when both
arguments are nil and false when exactly one is nil; for two non-nil
durations it compares the int64-wrapped difference (negated, again with
int64 wraparound, when negative) against `acceptableDurationDiff` (two
seconds, i.e. 2e9 ns).  Whenever the mathematical difference does not
overflow int64 (|x − y| < 2^63 ns) this coincides with the claimed
comparison: true iff |x − y| is strictly below two seconds, so a 1.9 s
difference compares equal and a 2.1 s difference compares unequal. -/
theorem C8_duration_comparer (d x y : Int)
    (h : |x - y| < 9223372036854775808) :
    durationComparer none none = true ∧
    durationComparer (some d) none = false ∧
    durationComparer none (some d) = false ∧
    (durationComparer (some x) (some y) = true ↔ |x - y| < acceptableDurationDiff) ∧
    acceptableDurationDiff = 2000000000 ∧
    durationComparer (some 0) (some 1900000000) = true ∧
    durationComparer (some 0) (some 2100000000) = false := by
  refine ⟨rfl, rfl, rfl, ?_, by decide, by decide, by decide⟩
  have h1 : -9223372036854775808 < x - y := (abs_lt.mp h).1
  have h2 : x - y < 9223372036854775808 := (abs_lt.mp h).2
  simp only [durationComparer, decide_eq_true_eq]
  rw [wrap64_eq_self (x - y) (le_of_lt h1) h2]
  by_cases hneg : x - y < 0
  · rw [if_pos hneg, wrap64_eq_self (-(x - y)) (by omega) (by omega), abs_of_neg hneg]
  · rw [if_neg hneg, abs_of_nonneg (not_lt.mp hneg)]

/-- Claim C8 amended witness: the no-overflow biconditional instantiated
at x = 1.9 s, y = 0, together with the 1.9 s / 2.1 s boundary
evaluations. -/
theorem C8_duration_comparer_witness :
    durationComparer (some 0) (some 1900000000) = true ∧
    durationComparer (some 0) (some 2100000000) = false ∧
    (durationComparer (some 1900000000) (some 0) = true ↔
      |(1900000000 : Int) - 0| < acceptableDurationDiff) := by
  have h := C8_duration_comparer 0 1900000000 0 (by decide)
  exact ⟨h.2.2.2.2.2.1, h.2.2.2.2.2.2, h.2.2.2.1⟩

/-- Claim C6: the transport-edge error conversion maps a nil error to nil,
ErrNotFound to NotFound, ErrConsistency to Unavailable, context
cancellation to Canceled, deadline expiry to DeadlineExceeded, and every
other error to Internal. -/
theorem C6_error_conversion (e : Err) (msg : String) :
    convertErrorToGRPC none = none ∧
    convertErrorToGRPC (some Err.errNotFound) =
      some { code := GRPCCode.notFound, messageOf := Err.errNotFound } ∧
    convertErrorToGRPC (some Err.errConsistency) =
      some { code := GRPCCode.unavailable, messageOf := Err.errConsistency } ∧
    convertErrorToGRPC (some Err.contextCanceled) =
      some { code := GRPCCode.canceled, messageOf := Err.contextCanceled } ∧
    convertErrorToGRPC (some Err.contextDeadlineExceeded) =
      some { code := GRPCCode.deadlineExceeded, messageOf := Err.contextCanceled } ∧
    (e ≠ Err.errNotFound → e ≠ Err.errConsistency → e ≠ Err.contextCanceled →
      e ≠ Err.contextDeadlineExceeded →
      convertErrorToGRPC (some e) = some { code := GRPCCode.internal, messageOf := e }) ∧
    convertErrorToGRPC (some (Err.other msg)) =
      some { code := GRPCCode.internal, messageOf := Err.other msg } := by
  refine ⟨rfl, rfl, rfl, rfl, rfl, ?_, rfl⟩
  intro h1 h2 h3 h4
  cases e with
  | errNotFound => exact absurd rfl h1
  | errConsistency => exact absurd rfl h2
  | contextCanceled => exact absurd rfl h3
  | contextDeadlineExceeded => exact absurd rfl h4
  | errNotAcquired => rfl
  | errClosed => rfl
  | other m => rfl

/-- Claim C6 witness: the conversion evaluated at ErrClosed, an error that
matches none of the four special cases, yields code Internal. -/
theorem C6_error_conversion_witness :
    convertErrorToGRPC (some Err.errClosed) =
      some { code := GRPCCode.internal, messageOf := Err.errClosed } :=
  (C6_error_conversion Err.errClosed ("boom")).2.2.2.2.2.1
    (by decide) (by decide) (by decide) (by decide)

/-- Claim C7: a read that terminates with ErrNotFound is re-cast by Expire
and Exists to `{Exists: false}` with a nil error, while Get and GetTTL
surface it to the client as a NotFound status. -/
theorem C7_notfound_surfacing :
    expireTail (Except.error Err.errNotFound) = (some { keyExists := false }, none) ∧
    existsTail (Except.error Err.errNotFound) = (some { keyExists := false }, none) ∧
    getTail (Except.error Err.errNotFound) =
      (none, some { code := GRPCCode.notFound, messageOf := Err.errNotFound }) ∧
    getTTLTail (Except.error Err.errNotFound) =
      (none, some { code := GRPCCode.notFound, messageOf := Err.errNotFound }) :=
  ⟨rfl, rfl, rfl, rfl⟩

/-- Claim C10: a GetTTL whose engine read succeeds with a nil raw value
returns the zero-value response — TTL field nil — and a nil error. -/
theorem C10_getttl_nil_duration :
    getTTLTail (Except.ok none) = (some { TTL := none }, none) := rfl

/-- Claim C5 counterexample: when both Close calls fail, the service's
Close returns the engine's (second) error, not the cluster's (first) as
claimed. -/
theorem C5_close_counterexample :
    (closeService (some (Err.other ("cluster close failure")))
        (some (Err.other ("engine close failure")))).2 =
      some (Err.other ("engine close failure")) ∧
    (closeService (some (Err.other ("cluster close failure")))
        (some (Err.other ("engine close failure")))).2 ≠
      some (Err.other ("cluster close failure")) :=
  ⟨rfl, by decide⟩

/-- Claim C5 amended: Close closes the cluster first and the engine
second; when both fail it returns the engine's error and logs the
cluster's; when exactly one fails, that error is returned; when neither
fails, nil is returned and nothing is logged. -/
theorem C5_close_amended (e1 e2 : Err) :
    closeService (some e1) (some e2) =
      ([CloseEvent.clusterClose, CloseEvent.engineClose, CloseEvent.logError e1], some e2) ∧
    closeService (some e1) none =
      ([CloseEvent.clusterClose, CloseEvent.engineClose], some e1) ∧
    closeService none (some e2) =
      ([CloseEvent.clusterClose, CloseEvent.engineClose], some e2) ∧
    closeService none none = ([CloseEvent.clusterClose, CloseEvent.engineClose], none) :=
  ⟨rfl, rfl, rfl, rfl⟩

/-- Claim C3: a DEFAULT consistency level is substituted by the service's
configured default (whose factory values are Read=MAJORITY, Write=ALL,
overridable by the With… options); an explicit level is returned
unchanged. -/
theorem C3_consistency_substitution (s : CoreService) :
    writeConsistency s { consistency := ConsistencyLevel.DEFAULT } =
      s.defaultWriteConsistency ∧
    readConsistency s { consistency := ConsistencyLevel.DEFAULT } =
      s.defaultReadConsistency ∧
    (∀ lvl : ConsistencyLevel, lvl ≠ ConsistencyLevel.DEFAULT →
      writeConsistency s { consistency := lvl } = lvl ∧
      readConsistency s { consistency := lvl } = lvl) ∧
    (New []).defaultReadConsistency = ConsistencyLevel.MAJORITY ∧
    (New []).defaultWriteConsistency = ConsistencyLevel.ALL ∧
    (∀ c, (New [WithDefaultReadConsistency c]).defaultReadConsistency = c ∧
      (New [WithDefaultWriteConsistency c]).defaultWriteConsistency = c) := by
  refine ⟨rfl, rfl, ?_, rfl, rfl, fun c => ⟨rfl, rfl⟩⟩
  intro lvl h
  constructor <;> simp [writeConsistency, readConsistency, h]

/-- Claim C3 witness: substitution at DEFAULT and non-substitution at the
explicit level ONE, for a service with write default ALL and read default
MAJORITY. -/
theorem C3_consistency_substitution_witness :
    writeConsistency
        { defaultWriteConsistency := ConsistencyLevel.ALL,
          defaultReadConsistency := ConsistencyLevel.MAJORITY }
        { consistency := ConsistencyLevel.DEFAULT } = ConsistencyLevel.ALL ∧
    writeConsistency
        { defaultWriteConsistency := ConsistencyLevel.ALL,
          defaultReadConsistency := ConsistencyLevel.MAJORITY }
        { consistency := ConsistencyLevel.ONE } = ConsistencyLevel.ONE ∧
    readConsistency
        { defaultWriteConsistency := ConsistencyLevel.ALL,
          defaultReadConsistency := ConsistencyLevel.MAJORITY }
        { consistency := ConsistencyLevel.ONE } = ConsistencyLevel.ONE := by
  have h := C3_consistency_substitution
    { defaultWriteConsistency := ConsistencyLevel.ALL,
      defaultReadConsistency := ConsistencyLevel.MAJORITY }
  exact ⟨h.1, (h.2.2.1 ConsistencyLevel.ONE (by decide)).1,
    (h.2.2.1 ConsistencyLevel.ONE (by decide)).2⟩

/-- Address order fact used to evaluate `sortNodes` on the witness fleet. -/
theorem kv_backendLE_ab : backendLE { address := "a" } { address := "b" } := by
  show ("a" : String) ≤ "b"
  rw [String.le_iff_toList_le]
  decide

/-- Address order fact used to evaluate `sortNodes` on the witness fleet. -/
theorem kv_not_backendLE_ca : ¬backendLE { address := "c" } { address := "a" } := by
  show ¬(("c" : String) ≤ "a")
  rw [String.le_iff_toList_le]
  decide

/-- Address order fact used to evaluate `sortNodes` on the witness fleet. -/
theorem kv_not_backendLE_cb : ¬backendLE { address := "c" } { address := "b" } := by
  show ¬(("c" : String) ≤ "b")
  rw [String.le_iff_toList_le]
  decide

/-- `sortNodes` evaluated on the witness fleet with addresses c, a, b. -/
theorem kv_sort_cab :
    sortNodes [{ address := "c" }, { address := "a" }, { address := "b" }] =
      [{ address := "a" }, { address := "b" }, { address := "c" }] := by
  simp [sortNodes, List.insertionSort, List.orderedInsert,
    kv_backendLE_ab, kv_not_backendLE_ca, kv_not_backendLE_cb]

/-- Concrete RepairArgs for the GET repair claims: winning value the byte
86 ("V") agreed by winners b1, b2, loser b3. -/
def getRepairArgsV : RepairArgs :=
  { value := some [86], err := none,
    winners := [{ address := "b1" }, { address := "b2" }],
    losers := [{ address := "b3" }] }

/-- Claim C1 counterexample: with the winner a value and the nested TTL
read succeeding with the agreed TTL nil, the GET repair issues
`Set(key, winningValue, 0)` against the losers — it is not skipped as the
claim states. -/
theorem C1_nil_ttl_counterexample :
    getRepairOperator getRepairArgsV (Except.ok none) =
      [{ kind := WriteKind.setOp (some [86]) 0, mode := OperationMode.concurrent }] ∧
    getRepairOperator getRepairArgsV (Except.ok none) ≠ [] :=
  ⟨rfl, by decide⟩

/-- Claim C1 amended: in GET read-repair with a value winner and a
successful nested TTL read, repair is skipped exactly when the agreed TTL
is non-nil and equal to the zero duration; when the agreed TTL is nil a
`Set(key, winningValue, 0)` is issued against the losers, and for a
non-nil non-zero agreed TTL a `Set(key, winningValue, ttl)` is issued. -/
theorem C1_get_repair_ttl (args : RepairArgs) (h : args.err = none) :
    getRepairOperator args (Except.ok (some 0)) = [] ∧
    getRepairOperator args (Except.ok none) =
      [{ kind := WriteKind.setOp args.value 0, mode := OperationMode.concurrent }] ∧
    (∀ t : Duration, t ≠ 0 →
      getRepairOperator args (Except.ok (some t)) =
        [{ kind := WriteKind.setOp args.value t, mode := OperationMode.concurrent }]) := by
  have hne : ¬args.err = some Err.errNotFound := by
    rw [h]
    exact fun hc => Option.noConfusion hc
  refine ⟨?_, ?_, ?_⟩
  · simp [getRepairOperator, hne]
  · simp [getRepairOperator, hne]
  · intro t ht
    simp [getRepairOperator, hne, ht]

/-- Claim C1 amended witness: the zero TTL skips, a 60 s TTL is applied. -/
theorem C1_get_repair_ttl_witness :
    getRepairOperator getRepairArgsV (Except.ok (some 0)) = [] ∧
    getRepairOperator getRepairArgsV (Except.ok (some 60000000000)) =
      [{ kind := WriteKind.setOp (some [86]) 60000000000,
         mode := OperationMode.concurrent }] := by
  have h := C1_get_repair_ttl getRepairArgsV rfl
  exact ⟨h.1, h.2.2 60000000000 (by decide)⟩

/-- Claim C2: evaluating the Expire and Exists repair closures at a
winning value (`args.Value` non-nil) whose nested TTL read succeeds
returning the nil duration: the source dereferences the nil
`*time.Duration` and faults instead of treating nil as "no repair". -/
theorem C2_nil_ttl_deref :
    expireRepairOperator getRepairArgsV (Except.ok none) (Except.ok [86]) =
      RepairOutcome.panics ∧
    existsRepairOperator getRepairArgsV (Except.ok none) (Except.ok [86]) =
      RepairOutcome.panics :=
  ⟨rfl, rfl⟩

/-- Claim C4: Lock calls the engine Write in Sequential mode with the
cluster view's backends sorted ascending by address (a sorted permutation
of the view); Set, Delete, Unlock, FlushDB — and every engine write issued
from the GET repair closure — use Concurrent mode on the unsorted view. -/
theorem C4_lock_sequential (s : CoreService)
    (clusterWrite : ConsistencyLevel → Except Err WriteView)
    (options : WriteOptions) (view : WriteView)
    (h : clusterWrite (writeConsistency s options) = Except.ok view) :
    coreLock s clusterWrite options =
      Except.ok { nodes := sortNodes view.backends,
                  acknowledgeRequired := view.acknowledgeRequired,
                  mode := OperationMode.sequential } ∧
    List.Sorted backendLE (sortNodes view.backends) ∧
    (sortNodes view.backends).Perm view.backends ∧
    coreSet s clusterWrite options =
      Except.ok { nodes := view.backends, acknowledgeRequired := view.acknowledgeRequired,
                  mode := OperationMode.concurrent } ∧
    coreDelete s clusterWrite options =
      Except.ok { nodes := view.backends, acknowledgeRequired := view.acknowledgeRequired,
                  mode := OperationMode.concurrent } ∧
    coreUnlock s clusterWrite options =
      Except.ok { nodes := view.backends, acknowledgeRequired := view.acknowledgeRequired,
                  mode := OperationMode.concurrent } ∧
    performFlushDb (Except.ok view) =
      Except.ok { nodes := view.backends, acknowledgeRequired := view.acknowledgeRequired,
                  mode := OperationMode.concurrent } ∧
    (∀ args ttlRead, ∀ w ∈ getRepairOperator args ttlRead,
      w.mode = OperationMode.concurrent) := by
  refine ⟨?_, ?_, ?_, ?_, ?_, ?_, rfl, ?_⟩
  · simp [coreLock, performWrite, h]
  · exact List.sorted_insertionSort backendLE view.backends
  · exact List.perm_insertionSort backendLE view.backends
  · simp [coreSet, performWrite, h]
  · simp [coreDelete, performWrite, h]
  · simp [coreUnlock, performWrite, h]
  · intro args ttlRead w hw
    by_cases hnf : args.err = some Err.errNotFound
    · simp [getRepairOperator, hnf] at hw
      rw [hw]
    · cases ttlRead with
      | error e => simp [getRepairOperator, hnf] at hw
      | ok ttlValue =>
        cases ttlValue with
        | none =>
          simp [getRepairOperator, hnf] at hw
          rw [hw]
        | some t =>
          by_cases ht : t = 0
          · simp [getRepairOperator, hnf, ht] at hw
          · simp [getRepairOperator, hnf, ht] at hw
            rw [hw]

/-- The cluster view for the Lock witness: addresses c, a, b, all three
acknowledgements required. -/
def viewCAB : WriteView :=
  { backends := [{ address := "c" }, { address := "a" }, { address := "b" }],
    acknowledgeRequired := 3 }

/-- Claim C4 witness: Lock on a view listing addresses c, a, b dispatches
sequentially over the sorted list a, b, c; Set stays concurrent on the
unsorted view. -/
theorem C4_lock_sequential_witness :
    coreLock
        { defaultWriteConsistency := ConsistencyLevel.ALL,
          defaultReadConsistency := ConsistencyLevel.MAJORITY }
        (fun _ => Except.ok viewCAB) { consistency := ConsistencyLevel.ALL } =
      Except.ok { nodes := [{ address := "a" }, { address := "b" }, { address := "c" }],
                  acknowledgeRequired := 3, mode := OperationMode.sequential } ∧
    List.Sorted backendLE (sortNodes viewCAB.backends) ∧
    (sortNodes viewCAB.backends).Perm viewCAB.backends ∧
    coreSet
        { defaultWriteConsistency := ConsistencyLevel.ALL,
          defaultReadConsistency := ConsistencyLevel.MAJORITY }
        (fun _ => Except.ok viewCAB) { consistency := ConsistencyLevel.ALL } =
      Except.ok { nodes := viewCAB.backends, acknowledgeRequired := 3,
                  mode := OperationMode.concurrent } := by
  have h := C4_lock_sequential
    { defaultWriteConsistency := ConsistencyLevel.ALL,
      defaultReadConsistency := ConsistencyLevel.MAJORITY }
    (fun _ => Except.ok viewCAB) { consistency := ConsistencyLevel.ALL } viewCAB rfl
  refine ⟨?_, h.2.1, h.2.2.1, h.2.2.2.1⟩
  rw [h.1,
    show viewCAB.backends =
      [{ address := "c" }, { address := "a" }, { address := "b" }] from rfl,
    kv_sort_cab]
  exact rfl

/-- Claim C9: over the slice-heap model, `sortNodes` leaves the input
slice's contents unchanged and returns a fresh slice holding an
address-sorted permutation of the input. -/
theorem C9_sortnodes_frame (h : SliceHeap) (r : Nat) (hr : r < h.next) :
    (sortNodesHeap h r).1.arrays r = h.arrays r ∧
    ((sortNodesHeap h r).1.arrays (sortNodesHeap h r).2).Perm (h.arrays r) ∧
    List.Sorted backendLE ((sortNodesHeap h r).1.arrays (sortNodesHeap h r).2) := by
  have hne : r ≠ h.next := Nat.ne_of_lt hr
  refine ⟨?_, ?_, ?_⟩
  · simp [sortNodesHeap, hne]
  · simp only [sortNodesHeap, if_pos rfl]
    exact List.perm_insertionSort backendLE (h.arrays r)
  · simp only [sortNodesHeap, if_pos rfl]
    exact List.sorted_insertionSort backendLE (h.arrays r)

/-- The heap for the C9 witness: one allocated slice, addresses c, a, b. -/
def heapW : SliceHeap :=
  { arrays := fun _ => [{ address := "c" }, { address := "a" }, { address := "b" }],
    next := 1 }

/-- Claim C9 witness: on the concrete heap the input slice still reads
c, a, b afterwards and the returned slice reads a, b, c. -/
theorem C9_sortnodes_frame_witness :
    (sortNodesHeap heapW 0).1.arrays 0 = heapW.arrays 0 ∧
    ((sortNodesHeap heapW 0).1.arrays (sortNodesHeap heapW 0).2).Perm (heapW.arrays 0) ∧
    List.Sorted backendLE ((sortNodesHeap heapW 0).1.arrays (sortNodesHeap heapW 0).2) ∧
    (sortNodesHeap heapW 0).1.arrays (sortNodesHeap heapW 0).2 =
      [{ address := "a" }, { address := "b" }, { address := "c" }] := by
  have h := C9_sortnodes_frame heapW 0 (by decide)
  refine ⟨h.1, h.2.1, h.2.2, ?_⟩
  show sortNodes [{ address := "c" }, { address := "a" }, { address := "b" }] = _
  exact kv_sort_cab

end KVStore
